import Mathlib

/-!
Shallow embedding of the courtAI repository's docket-consolidation and
news-matching core (`courtai_2.py` and `courtAI_3.py`), together with
theorems settling the specification's claims against it.

External effects (HTTP requests, the HTML author scrape, the file system)
are modelled as explicit oracles and explicit state records; everything
else is translated function by function from the Python source.
-/

namespace CourtAI

/-! ### Python string primitives used by the scripts -/

/-- ASCII whitespace, the characters stripped by Python's `str.strip()` and
matched by the regex class `\s` (space, tab, newline, carriage return,
vertical tab, form feed). -/
def isPySpace (c : Char) : Bool :=
  c = ' ' || c = '\t' || c = '\n' || c = '\r' || c = '\x0b' || c = '\x0c'

/-- Python `str.strip()`: remove leading and trailing whitespace. -/
def py_strip (s : String) : String :=
  ⟨((s.data.dropWhile isPySpace).reverse.dropWhile isPySpace).reverse⟩

/-- Python `str.lower()` (ASCII letters). -/
def py_lower (s : String) : String :=
  ⟨s.data.map Char.toLower⟩

/-- Python `sep.join(parts)`. -/
def py_join (sep : String) : List String → String
  | [] => ""
  | [x] => x
  | x :: y :: rest => x ++ sep ++ py_join sep (y :: rest)

/-- Helper for `py_in`: scan for an occurrence of `needle`. -/
def py_in_chars (needle : List Char) : List Char → Bool
  | [] => needle.isEmpty
  | c :: rest => needle.isPrefixOf (c :: rest) || py_in_chars needle rest

/-- Python `needle in hay` on strings: contiguous-substring test. -/
def py_in (needle hay : String) : Bool :=
  py_in_chars needle.data hay.data

/-- Numeric value of an ASCII digit character. -/
def digitVal (c : Char) : Nat :=
  c.toNat - 48

/-! ### `extract_year_from_case_number` (courtAI_3.py, lines 152-172)

The function first runs `re.search(r'^(\d{2}|\d{4})[-\s]', s)`: the regex
engine tries the two-digit alternative first and falls back to the
four-digit one, both anchored at the start and followed by `-` or
whitespace.  A two-digit match `yy` yields `int("20" + yy)`; a four-digit
match is taken literally.  Otherwise `re.search(r'(19[8-9]\d|20[0-2]\d)', s)`
returns the leftmost four-character digit window in that class. -/

/-- A separator for the leading-year pattern: `-` or whitespace. -/
def isSep (c : Char) : Bool :=
  c = '-' || isPySpace c

/-- The anchored search `^(\d{2}|\d{4})[-\s]` with the alternation order of
the source regex: two digits and a separator first, else four digits and a
separator.  A two-digit year `yy` becomes `int("20" + yy)`. -/
def leadYearMatch : List Char → Option Nat
  | a :: b :: c :: rest =>
    if a.isDigit && b.isDigit then
      if isSep c then
        some (2000 + 10 * digitVal a + digitVal b)
      else
        match rest with
        | d :: e :: _ =>
          if c.isDigit && d.isDigit && isSep e then
            some (1000 * digitVal a + 100 * digitVal b + 10 * digitVal c + digitVal d)
          else none
        | _ => none
    else none
  | _ => none

/-- One window of the fallback regex `(19[8-9]\d|20[0-2]\d)`, written with
the character classes of the source pattern. -/
def yearClassAt : List Char → Option Nat
  | a :: b :: c :: d :: _ =>
    if (a = '1' && b = '9' && (c = '8' || c = '9') && d.isDigit)
        || (a = '2' && b = '0' && (c = '0' || c = '1' || c = '2') && d.isDigit) then
      some (1000 * digitVal a + 100 * digitVal b + 10 * digitVal c + digitVal d)
    else none
  | _ => none

/-- Leftmost match of the fallback regex `(19[8-9]\d|20[0-2]\d)`. -/
def scanYearClass : List Char → Option Nat
  | [] => none
  | c :: rest =>
    match yearClassAt (c :: rest) with
    | some y => some y
    | none => scanYearClass rest

/-- Translation of `extract_year_from_case_number` (courtAI_3.py).  `none` models Python
`None`; the guard `if not case_number` also short-circuits the empty
string, which is falsy in Python. -/
def extract_year_from_case_number (case_number : Option String) : Option Nat :=
  match case_number with
  | none => none
  | some s =>
    if s = "" then none
    else
      match leadYearMatch s.data with
      | some y => some y
      | none => scanYearClass s.data

/-! ### The specification's year-extraction rules (spec section 4.1, claim C2)

Stated from the spec's words, to be compared with the source translation
above: rule 1a (leading two-digit number followed by `-` or whitespace,
value `2000 + digits`), rule 1b (leading four-digit number followed by `-`
or whitespace, taken literally), rule 2 (first four-digit number anywhere
in the string lying in the inclusive range [1980, 2029]), rule 3 (absent). -/

/-- Spec rule 1a test: the string begins with a two-digit number
immediately followed by `-` or whitespace. -/
def beginsTwoDigitYear : List Char → Bool
  | a :: b :: c :: _ => a.isDigit && b.isDigit && isSep c
  | _ => false

/-- Spec rule 1b test: the string begins with a four-digit number
immediately followed by `-` or whitespace. -/
def beginsFourDigitYear : List Char → Bool
  | a :: b :: c :: d :: e :: _ => a.isDigit && b.isDigit && c.isDigit && d.isDigit && isSep e
  | _ => false

/-- Value of spec rule 1a: 2000 plus the two leading digits. -/
def twoDigitYearValue : List Char → Nat
  | a :: b :: _ => 2000 + 10 * digitVal a + digitVal b
  | _ => 0

/-- Value of spec rule 1b: the literal four leading digits. -/
def fourDigitYearValue : List Char → Nat
  | a :: b :: c :: d :: _ => 1000 * digitVal a + 100 * digitVal b + 10 * digitVal c + digitVal d
  | _ => 0

/-- Spec rule 2, one window: a four-digit number here whose value lies in
the inclusive range [1980, 2029]. -/
def fourDigitWindowInRange : List Char → Option Nat
  | a :: b :: c :: d :: _ =>
    if a.isDigit && b.isDigit && c.isDigit && d.isDigit then
      let n := 1000 * digitVal a + 100 * digitVal b + 10 * digitVal c + digitVal d
      if 1980 ≤ n ∧ n ≤ 2029 then some n else none
    else none
  | _ => none

/-- Spec rule 2: the first four-digit number found anywhere in the string
whose value lies in [1980, 2029]. -/
def firstYearInRange : List Char → Option Nat
  | [] => none
  | c :: rest =>
    match fourDigitWindowInRange (c :: rest) with
    | some y => some y
    | none => firstYearInRange rest

/-- The year extractor as the specification words it: the rules applied in
order with first match returning, absent input giving an absent result. -/
def yearExtractionSpec (case_number : Option String) : Option Nat :=
  match case_number with
  | none => none
  | some s =>
    if beginsTwoDigitYear s.data then some (twoDigitYearValue s.data)
    else if beginsFourDigitYear s.data then some (fourDigitYearValue s.data)
    else firstYearInRange s.data


theorem toNat_inj_char {a b : Char} (h : a.toNat = b.toNat) : a = b :=
  Char.eq_of_val_eq (UInt32.ext h)

theorem eq_char_of_toNat {c t : Char} {n : Nat} (h : c.toNat = n) (ht : t.toNat = n) : c = t :=
  toNat_inj_char (h.trans ht.symm)

theorem digit_bounds {c : Char} (h : c.isDigit = true) :
    48 ≤ c.toNat ∧ c.toNat = 48 + digitVal c ∧ digitVal c ≤ 9 := by
  simp [Char.isDigit] at h
  have hn : 48 ≤ c.toNat ∧ c.toNat ≤ 57 := h
  unfold digitVal
  omega

theorem leadYearMatch_eq (cs : List Char) :
    leadYearMatch cs =
      if beginsTwoDigitYear cs then some (twoDigitYearValue cs)
      else if beginsFourDigitYear cs then some (fourDigitYearValue cs)
      else none := by
  match cs with
  | [] => rfl
  | [a] => rfl
  | [a, b] => rfl
  | [a, b, c] =>
    cases ha : a.isDigit <;> cases hb : b.isDigit <;> cases hc : isSep c <;>
      simp [leadYearMatch, beginsTwoDigitYear, beginsFourDigitYear, twoDigitYearValue, ha, hb, hc]
  | [a, b, c, d] =>
    cases ha : a.isDigit <;> cases hb : b.isDigit <;> cases hc : isSep c <;>
      simp [leadYearMatch, beginsTwoDigitYear, beginsFourDigitYear, twoDigitYearValue, ha, hb, hc]
  | a :: b :: c :: d :: e :: rest =>
    cases ha : a.isDigit <;> cases hb : b.isDigit <;> cases hc : isSep c <;>
      cases hcd : c.isDigit <;> cases hd : d.isDigit <;> cases he : isSep e <;>
      simp [leadYearMatch, beginsTwoDigitYear, beginsFourDigitYear, twoDigitYearValue,
        fourDigitYearValue, ha, hb, hc, hcd, hd, he]

theorem yearClassAt_eq (cs : List Char) : yearClassAt cs = fourDigitWindowInRange cs := by
  match cs with
  | [] => rfl
  | [_] => rfl
  | [_, _] => rfl
  | [_, _, _] => rfl
  | a :: b :: c :: d :: rest =>
    simp only [yearClassAt, fourDigitWindowInRange]
    by_cases hcls : ((a = '1' && b = '9' && (c = '8' || c = '9') && d.isDigit)
        || (a = '2' && b = '0' && (c = '0' || c = '1' || c = '2') && d.isDigit)) = true
    · rw [if_pos hcls]
      simp only [Bool.or_eq_true, Bool.and_eq_true, decide_eq_true_eq] at hcls
      rcases hcls with ⟨⟨⟨ha, hb⟩, hc⟩, hd⟩ | ⟨⟨⟨ha, hb⟩, hc⟩, hd⟩ <;>
        obtain ⟨_, _, hd9⟩ := digit_bounds hd <;> subst ha <;> subst hb <;>
        rcases hc with hc | hc <;> try subst hc
      all_goals try rcases hc with hc | hc <;> subst hc
      all_goals simp [hd, digitVal] <;> omega
    · rw [if_neg hcls]
      by_cases hdig : (a.isDigit && b.isDigit && c.isDigit && d.isDigit) = true
      · rw [if_pos hdig]
        simp only [Bool.and_eq_true] at hdig
        obtain ⟨⟨⟨hda, hdb⟩, hdc⟩, hdd⟩ := hdig
        obtain ⟨la, ea, ba⟩ := digit_bounds hda
        obtain ⟨lb, eb, bb⟩ := digit_bounds hdb
        obtain ⟨lc, ec, bc⟩ := digit_bounds hdc
        obtain ⟨ld, ed, bd⟩ := digit_bounds hdd
        by_cases hrange : 1980 ≤ 1000 * digitVal a + 100 * digitVal b + 10 * digitVal c + digitVal d ∧
            1000 * digitVal a + 100 * digitVal b + 10 * digitVal c + digitVal d ≤ 2029
        · exfalso
          apply hcls
          have hsplit : (digitVal a = 1 ∧ digitVal b = 9 ∧ (digitVal c = 8 ∨ digitVal c = 9)) ∨
              (digitVal a = 2 ∧ digitVal b = 0 ∧ (digitVal c = 0 ∨ digitVal c = 1 ∨ digitVal c = 2)) := by
            omega
          simp only [Bool.or_eq_true, Bool.and_eq_true, decide_eq_true_eq]
          rcases hsplit with ⟨va, vb, vc⟩ | ⟨va, vb, vc⟩
          · left
            refine ⟨⟨⟨eq_char_of_toNat (show a.toNat = 49 by omega) (by decide),
              eq_char_of_toNat (show b.toNat = 57 by omega) (by decide)⟩, ?_⟩, hdd⟩
            rcases vc with vc | vc
            · exact Or.inl (eq_char_of_toNat (show c.toNat = 56 by omega) (by decide))
            · exact Or.inr (eq_char_of_toNat (show c.toNat = 57 by omega) (by decide))
          · right
            refine ⟨⟨⟨eq_char_of_toNat (show a.toNat = 50 by omega) (by decide),
              eq_char_of_toNat (show b.toNat = 48 by omega) (by decide)⟩, ?_⟩, hdd⟩
            rcases vc with vc | vc | vc
            · exact Or.inl (Or.inl (eq_char_of_toNat (show c.toNat = 48 by omega) (by decide)))
            · exact Or.inl (Or.inr (eq_char_of_toNat (show c.toNat = 49 by omega) (by decide)))
            · exact Or.inr (eq_char_of_toNat (show c.toNat = 50 by omega) (by decide))
        · rw [if_neg hrange]
      · rw [if_neg hdig]

theorem scanYearClass_eq (cs : List Char) : scanYearClass cs = firstYearInRange cs := by
  induction cs with
  | nil => rfl
  | cons c rest ih =>
    simp only [scanYearClass, firstYearInRange, yearClassAt_eq]
    cases h : fourDigitWindowInRange (c :: rest) <;> simp [h, ih]

/-- Claim C2: for every case-number string the year extractor applies the
spec's rules in order with first match returning — a leading two-digit
number followed by `-` or whitespace gives 2000 plus those digits; a
leading four-digit number followed by `-` or whitespace gives the literal
four digits; otherwise the first four-digit number found anywhere in the
string within the inclusive range [1980, 2029]; otherwise (including
absent input) the result is absent — and, being a total function, no
input raises an exception. -/
theorem extract_year_matches_spec_rules (x : Option String) :
    extract_year_from_case_number x = yearExtractionSpec x := by
  match x with
  | none => rfl
  | some s =>
    simp only [extract_year_from_case_number, yearExtractionSpec]
    by_cases hs : s = ""
    · subst hs
      rfl
    · rw [if_neg hs, leadYearMatch_eq]
      by_cases h2 : beginsTwoDigitYear s.data = true
      · simp [h2]
      · simp only [h2, Bool.false_eq_true, if_false]
        by_cases h4 : beginsFourDigitYear s.data = true
        · simp [h4]
        · simp [h4, scanYearClass_eq]

/-! ### `extract_year_from_url` (courtAI_3.py, lines 211-214)

`re.search(r"/(\d{4})/", url)`: the leftmost occurrence of a slash, four
digits and a closing slash. -/

/-- One window of the URL-year pattern `/(\d{4})/`. -/
def urlYearAt : List Char → Option Nat
  | s :: a :: b :: c :: d :: t :: _ =>
    if s = '/' && a.isDigit && b.isDigit && c.isDigit && d.isDigit && t = '/' then
      some (1000 * digitVal a + 100 * digitVal b + 10 * digitVal c + digitVal d)
    else none
  | _ => none

/-- Leftmost match of `/(\d{4})/` in a character list. -/
def scanUrlYear : List Char → Option Nat
  | [] => none
  | c :: rest =>
    match urlYearAt (c :: rest) with
    | some y => some y
    | none => scanUrlYear rest

/-- Translation of `extract_year_from_url` (courtAI_3.py). -/
def extract_year_from_url (url : String) : Option Nat :=
  scanUrlYear url.data

/-! ### Configuration and the exclusion filters (courtAI_3.py)

`EXCLUDED_AUTHORS`, `EXCLUDED_URL_PATTERNS` and `YEAR_MATCHING` come from
`config.json`; they are carried here in an explicit record. -/

/-- The configuration fields consumed by the matching stage. -/
structure Config where
  api_key : String
  cse_id : String
  excluded_authors : List String
  excluded_url_patterns : List String
  year_matching : Bool
deriving DecidableEq

/-- Translation of `is_excluded_url` (courtAI_3.py, lines 145-149): some configured
pattern occurs in the URL. -/
def is_excluded_url (excluded_url_patterns : List String) (url : String) : Bool :=
  excluded_url_patterns.any (fun pattern => py_in pattern url)

/-- Python truthiness of an optional integer: `None` and `0` are falsy. -/
def pyTruthyNat : Option Nat → Bool
  | none => false
  | some n => n != 0

/-- Python truthiness of an optional string: `None` and `""` are falsy. -/
def pyTruthyStr : Option String → Bool
  | none => false
  | some s => s != ""

/-- The year-mismatch condition of courtAI_3.py, line 281:
`YEAR_MATCHING and case_year and article_year and case_year != article_year`.
The two year operands are tested for Python truthiness, not merely for
presence. -/
def yearMismatchCond (year_matching : Bool) (case_year article_year : Option Nat) : Bool :=
  year_matching && pyTruthyNat case_year && pyTruthyNat article_year
    && (case_year != article_year)

/-! ### `process_search_results` (courtAI_3.py, lines 244-292)

A raw search response is a success envelope flag (the `searchInformation`
key) and an optional `items` list; each item carries title, link and
snippet.  The per-link author fetch (`fetch_author`) is an oracle
parameter.  Exclusion reasons are recorded structurally: `author a` stands
for the string `"Excluded author: <a>"`, `urlPattern p` for
`"URL pattern match: <p>"`, and `yearMismatch cy ay` for
`"Year mismatch: Case year <cy> ≠ Article year <ay>"`. -/

/-- One entry of the `items` array of a search response. -/
structure SearchItem where
  title : String
  link : String
  snippet : String
deriving DecidableEq

/-- A structurally valid search response as the script sees it. -/
structure GoogleData where
  searchInformation : Bool
  items : Option (List SearchItem)
deriving DecidableEq

/-- The recorded exclusion reason. -/
inductive ExclusionReason where
  | author (a : String)
  | urlPattern (p : String)
  | yearMismatch (caseYear articleYear : Nat)
deriving DecidableEq

/-- A row of the valid-results list: `(title, link, article_year, snippet, author)`. -/
structure ValidResult where
  title : String
  link : String
  year : Option Nat
  snippet : String
  author : String
deriving DecidableEq

/-- A row of the excluded-results list, with its reason. -/
structure ExcludedResult where
  title : String
  link : String
  year : Option Nat
  snippet : String
  author : String
  reason : ExclusionReason
deriving DecidableEq

/-- The exclusion-reason cascade of courtAI_3.py, lines 267-283: author
blacklist first, then URL patterns (recording the first matching pattern,
as `[p for p in EXCLUDED_URL_PATTERNS if p in link][0]` does), then the
year mismatch; `none` when no test fires. -/
def exclusionReasonFor (cfg : Config) (case_year article_year : Option Nat)
    (author link : String) : Option ExclusionReason :=
  if py_lower author ∈ cfg.excluded_authors then
    some (.author author)
  else if is_excluded_url cfg.excluded_url_patterns link then
    some (.urlPattern (((cfg.excluded_url_patterns.filter (fun p => py_in p link)).headD "")))
  else if yearMismatchCond cfg.year_matching case_year article_year then
    some (.yearMismatch (case_year.getD 0) (article_year.getD 0))
  else none

/-- The valid-result record built from one item. -/
def mkValidResult (fetch_author : String → String) (it : SearchItem) : ValidResult :=
  { title := it.title, link := it.link, year := extract_year_from_url it.link,
    snippet := it.snippet, author := fetch_author it.link }

/-- The excluded-result record built from one item and its reason. -/
def mkExcludedResult (fetch_author : String → String) (it : SearchItem)
    (reason : ExclusionReason) : ExcludedResult :=
  { title := it.title, link := it.link, year := extract_year_from_url it.link,
    snippet := it.snippet, author := fetch_author it.link, reason := reason }

/-- The loop body of `process_search_results`: items are appended to the
valid or excluded list in order. -/
def classifyItems (cfg : Config) (fetch_author : String → String)
    (case_year : Option Nat) : List SearchItem → List ValidResult × List ExcludedResult
  | [] => ([], [])
  | it :: rest =>
    let article_year := extract_year_from_url it.link
    let author := fetch_author it.link
    let (valid, excluded) := classifyItems cfg fetch_author case_year rest
    match exclusionReasonFor cfg case_year article_year author it.link with
    | some reason => (valid, mkExcludedResult fetch_author it reason :: excluded)
    | none => (mkValidResult fetch_author it :: valid, excluded)

/-- Line 250: `case_year = extract_year_from_case_number(case_number) if
case_number else None`. -/
def caseYearOf (case_number : Option String) : Option Nat :=
  if pyTruthyStr case_number then extract_year_from_case_number case_number else none

/-- Translation of `process_search_results` (courtAI_3.py).  The guard is line 246:
`if not search_results or "items" not in search_results: return [], []`. -/
def process_search_results (cfg : Config) (fetch_author : String → String)
    (search_results : Option GoogleData) (case_number : Option String) :
    List ValidResult × List ExcludedResult :=
  match search_results with
  | none => ([], [])
  | some data =>
    match data.items with
    | none => ([], [])
    | some items => classifyItems cfg fetch_author (caseYearOf case_number) items

/-! ### The classifier as the specification words it (claims C3-C5)

The spec describes a fixed priority list of exclusion predicates — author
blacklist, then URL pattern, then year mismatch — with the first true
predicate fixing the verdict. -/

/-- All applicable exclusion reasons of one hit, listed in the spec's
priority order (author, URL pattern, year mismatch). -/
def applicableReasons (cfg : Config) (case_year article_year : Option Nat)
    (author link : String) : List ExclusionReason :=
  (if py_lower author ∈ cfg.excluded_authors then [ExclusionReason.author author] else [])
    ++ (if is_excluded_url cfg.excluded_url_patterns link then
        [ExclusionReason.urlPattern ((cfg.excluded_url_patterns.filter (fun p => py_in p link)).headD "")]
      else [])
    ++ (if yearMismatchCond cfg.year_matching case_year article_year then
        [ExclusionReason.yearMismatch (case_year.getD 0) (article_year.getD 0)]
      else [])

/-- The spec's verdict of one hit: the first applicable reason, if any. -/
def specVerdict (cfg : Config) (fetch_author : String → String)
    (case_year : Option Nat) (it : SearchItem) : Option ExclusionReason :=
  (applicableReasons cfg case_year (extract_year_from_url it.link)
    (fetch_author it.link) it.link).head?

theorem exclusionReasonFor_eq_head (cfg : Config) (case_year article_year : Option Nat)
    (author link : String) :
    exclusionReasonFor cfg case_year article_year author link =
      (applicableReasons cfg case_year article_year author link).head? := by
  unfold exclusionReasonFor applicableReasons
  by_cases h1 : py_lower author ∈ cfg.excluded_authors
  · simp [h1]
  · by_cases h2 : is_excluded_url cfg.excluded_url_patterns link = true
    · simp [h1, h2]
    · by_cases h3 : yearMismatchCond cfg.year_matching case_year article_year = true
      · simp [h1, h2, h3]
      · simp [h1, h2, h3]

theorem classifyItems_eq (cfg : Config) (fetch_author : String → String)
    (case_year : Option Nat) (items : List SearchItem) :
    classifyItems cfg fetch_author case_year items =
      ((items.filter (fun it => (specVerdict cfg fetch_author case_year it).isNone)).map
          (mkValidResult fetch_author),
        items.filterMap (fun it =>
          (specVerdict cfg fetch_author case_year it).map (mkExcludedResult fetch_author it))) := by
  induction items with
  | nil => rfl
  | cons it rest ih =>
    simp only [classifyItems, ih, exclusionReasonFor_eq_head]
    cases h : specVerdict cfg fetch_author case_year it with
    | none =>
      simp only [specVerdict] at h
      simp [List.filter_cons, List.filterMap_cons, specVerdict, h]
    | some reason =>
      simp only [specVerdict] at h
      simp [List.filter_cons, List.filterMap_cons, specVerdict, h]

/-- Claim C3: for every search hit the exclusion predicates are evaluated
in the fixed priority order author blacklist, URL-pattern blacklist, year
mismatch; the first true predicate fixes the single recorded reason, the
hit is routed to the excluded list with that reason, and a hit with no
true predicate is routed to the valid list. -/
theorem classifier_priority_order (cfg : Config) (fetch_author : String → String)
    (envelope : Bool) (items : List SearchItem) (case_number : Option String) :
    process_search_results cfg fetch_author
        (some { searchInformation := envelope, items := some items }) case_number =
      ((items.filter (fun it =>
          (specVerdict cfg fetch_author (caseYearOf case_number) it).isNone)).map
            (mkValidResult fetch_author),
        items.filterMap (fun it =>
          (specVerdict cfg fetch_author (caseYearOf case_number) it).map
            (mkExcludedResult fetch_author it))) := by
  unfold process_search_results
  exact classifyItems_eq cfg fetch_author (caseYearOf case_number) items

/-- Claim C4, counterexample: with year matching enabled, a case year and
an article year that are both present and differ, the mismatch exclusion
nevertheless does not fire when the case year is `0` — Python's truthiness
test `case_year and article_year` treats the integer `0` like an absent
year.  The year `0` is reachable: the case number `"0000-1"` extracts to it. -/
theorem year_mismatch_zero_year_cex :
    (some (0 : Nat)).isSome = true ∧ (some (2023 : Nat)).isSome = true ∧ (0 : Nat) ≠ 2023 ∧
    yearMismatchCond true (some 0) (some 2023) = false ∧
    extract_year_from_case_number (some "0000-1") = some 0 := by
  decide

/-- Claim C4, amended: the year-mismatch exclusion fires iff the
year-matching flag is enabled AND both years are present and nonzero AND
they differ; an absent — or zero — year never triggers it, regardless of
the flag. -/
theorem year_mismatch_characterization (year_matching : Bool) (case_year article_year : Option Nat) :
    yearMismatchCond year_matching case_year article_year = true ↔
      (year_matching = true ∧
        (∃ a, case_year = some a ∧ a ≠ 0) ∧
        (∃ b, article_year = some b ∧ b ≠ 0) ∧
        case_year ≠ article_year) := by
  cases year_matching <;> cases case_year <;> cases article_year <;>
    simp [yearMismatchCond, pyTruthyNat] <;> aesop

/-- Claim C5, counterexample: the configured exclusion set `["CNN"]`
contains the resolved author `"CNN"` (they are identical, hence certainly
equal under case-insensitive comparison), yet the hit is routed to the
valid list and the excluded list stays empty: the code lowercases only the
author before an exact membership test, so an uppercase configured entry
never matches. -/
theorem excluded_author_case_cex :
    process_search_results
        { api_key := "k", cse_id := "c", excluded_authors := ["CNN"],
          excluded_url_patterns := [], year_matching := false }
        (fun _ => "CNN")
        (some { searchInformation := true,
                items := some [{ title := "T", link := "http://x", snippet := "S" }] })
        none =
      ([{ title := "T", link := "http://x", year := none, snippet := "S", author := "CNN" }], []) := by
  decide

/-- Claim C5, amended: the excluded-author test is an exact membership
test of the lowercased resolved author against the configured author set
(case-insensitive exactly when the configured entries are lowercase): for
every configured set and every hit whose lowercased resolved author is in
the set, the hit appears in the excluded results with reason
`author <resolved author>` (rendered `"Excluded author: <author>"`) and its
valid-result row never appears in the valid results. -/
theorem excluded_author_routing (cfg : Config) (fetch_author : String → String)
    (envelope : Bool) (items : List SearchItem) (case_number : Option String)
    (it : SearchItem) (hit : it ∈ items)
    (ha : py_lower (fetch_author it.link) ∈ cfg.excluded_authors) :
    mkExcludedResult fetch_author it (ExclusionReason.author (fetch_author it.link)) ∈
        (process_search_results cfg fetch_author
          (some { searchInformation := envelope, items := some items }) case_number).2 ∧
      mkValidResult fetch_author it ∉
        (process_search_results cfg fetch_author
          (some { searchInformation := envelope, items := some items }) case_number).1 := by
  have hmain := classifyItems_eq cfg fetch_author (caseYearOf case_number) items
  have hv : specVerdict cfg fetch_author (caseYearOf case_number) it =
      some (ExclusionReason.author (fetch_author it.link)) := by
    unfold specVerdict applicableReasons
    simp [ha]
  constructor
  · show _ ∈ (classifyItems cfg fetch_author (caseYearOf case_number) items).2
    rw [hmain]
    exact List.mem_filterMap.mpr ⟨it, hit, by rw [hv]; rfl⟩
  · show _ ∉ (classifyItems cfg fetch_author (caseYearOf case_number) items).1
    rw [hmain]
    intro hmem
    obtain ⟨it2, hit2, heq⟩ := List.mem_map.mp hmem
    obtain ⟨_, hnone⟩ := List.mem_filter.mp hit2
    have hsame : it2 = it := by
      cases it2
      cases it
      simp only [mkValidResult, ValidResult.mk.injEq] at heq
      obtain ⟨h1, h2, _, h3, _⟩ := heq
      simp_all
    rw [hsame, hv] at hnone
    simp at hnone

/-- Claim C5, witness for the amended theorem at concrete input: author
resolved as `"CNN"`, configured set `["cnn"]`. -/
theorem excluded_author_routing_witness :
    mkExcludedResult (fun _ => "CNN") { title := "T", link := "http://x", snippet := "S" }
        (ExclusionReason.author "CNN") ∈
      (process_search_results
        { api_key := "k", cse_id := "c", excluded_authors := ["cnn"],
          excluded_url_patterns := [], year_matching := true }
        (fun _ => "CNN")
        (some { searchInformation := true,
                items := some [{ title := "T", link := "http://x", snippet := "S" }] })
        (some "23-CR-1")).2 ∧
    mkValidResult (fun _ => "CNN") { title := "T", link := "http://x", snippet := "S" } ∉
      (process_search_results
        { api_key := "k", cse_id := "c", excluded_authors := ["cnn"],
          excluded_url_patterns := [], year_matching := true }
        (fun _ => "CNN")
        (some { searchInformation := true,
                items := some [{ title := "T", link := "http://x", snippet := "S" }] })
        (some "23-CR-1")).1 :=
  excluded_author_routing _ _ _ _ _ _ (by decide) (by decide)

/-! ### `perform_google_search` (courtAI_3.py, lines 174-209)

The HTTP layer is an oracle assigning each attempt index an outcome: a
transport failure (`requests` exception, covering bad status and JSON
errors) or a parsed response body.  The loop `for attempt in range(retries)`
returns the body as soon as it carries the `searchInformation` envelope —
with or without hits — retries otherwise, sleeping `2 ** attempt` seconds
(the transport branch skips the sleep after the final attempt), and
returns `None` when all attempts are exhausted. -/

/-- Outcome of one HTTP attempt. -/
inductive AttemptOutcome where
  | transportError
  | response (data : GoogleData)
deriving DecidableEq

/-- Observable trace of one `perform_google_search` call: the returned
value, the number of HTTP requests issued, and the backoff sleeps in
seconds, in order. -/
structure SearchTrace where
  result : Option GoogleData
  calls : Nat
  sleeps : List Nat
deriving DecidableEq

/-- The retry loop of `perform_google_search`, iterating over the attempt
indices of `range(retries)`. -/
def searchLoop (oracle : Nat → AttemptOutcome) (retries : Nat) : List Nat → SearchTrace
  | [] => { result := none, calls := 0, sleeps := [] }
  | attempt :: rest =>
    match oracle attempt with
    | .response data =>
      if data.searchInformation then
        { result := some data, calls := 1, sleeps := [] }
      else
        let t := searchLoop oracle retries rest
        { result := t.result, calls := t.calls + 1, sleeps := 2 ^ attempt :: t.sleeps }
    | .transportError =>
      let t := searchLoop oracle retries rest
      { result := t.result, calls := t.calls + 1,
        sleeps := (if attempt < retries - 1 then [2 ^ attempt] else []) ++ t.sleeps }

/-- Translation of `perform_google_search` (courtAI_3.py); the default retry bound is 3. -/
def perform_google_search (oracle : Nat → AttemptOutcome) (retries : Nat := 3) : SearchTrace :=
  searchLoop oracle retries (List.range retries)

/-- A structurally valid attempt: a response carrying the success envelope. -/
def isValidAttempt : AttemptOutcome → Bool
  | .response data => data.searchInformation
  | .transportError => false

theorem searchLoop_all_fail (oracle : Nat → AttemptOutcome) (retries : Nat) :
    ∀ (n a : Nat), (∀ k, a ≤ k → k < a + n → isValidAttempt (oracle k) = false) →
      (searchLoop oracle retries (List.range' a n)).result = none ∧
      (searchLoop oracle retries (List.range' a n)).calls = n := by
  intro n
  induction n with
  | zero => exact fun a _ => ⟨rfl, rfl⟩
  | succ m ih =>
    intro a h
    have ha : isValidAttempt (oracle a) = false := h a le_rfl (by omega)
    have hrest := ih (a + 1) (fun k hk1 hk2 => h k (by omega) (by omega))
    show (searchLoop oracle retries (a :: List.range' (a + 1) m)).result = none ∧ _
    cases ho : oracle a with
    | transportError => simp [searchLoop, ho, hrest.1, hrest.2]
    | response data =>
      have hinfo : data.searchInformation = false := by simpa [isValidAttempt, ho] using ha
      simp [searchLoop, ho, hinfo, hrest.1, hrest.2]

theorem searchLoop_first_valid (oracle : Nat → AttemptOutcome) (retries : Nat) :
    ∀ (k a n : Nat), a + n ≤ retries → k < n →
      (∀ j, j < k → isValidAttempt (oracle (a + j)) = false) →
      ∀ (data : GoogleData), oracle (a + k) = AttemptOutcome.response data →
        data.searchInformation = true →
        searchLoop oracle retries (List.range' a n) =
          { result := some data, calls := k + 1,
            sleeps := (List.range' a k).map (fun j => 2 ^ j) } := by
  intro k
  induction k with
  | zero =>
    intro a n hle hkn hprev data hresp hinfo
    match n, hkn with
    | m + 1, _ =>
      have ho : oracle a = AttemptOutcome.response data := by simpa using hresp
      show searchLoop oracle retries (a :: List.range' (a + 1) m) = _
      simp [searchLoop, ho, hinfo]
  | succ m ih =>
    intro a n hle hkn hprev data hresp hinfo
    match n, hkn with
    | p + 1, _ =>
      have ha : isValidAttempt (oracle a) = false := by simpa using hprev 0 (by omega)
      have hrest := ih (a + 1) p (by omega) (by omega)
        (fun j hj => by
          have hh := hprev (j + 1) (by omega)
          have he : a + (j + 1) = a + 1 + j := by omega
          rwa [he] at hh)
        data (by rwa [show a + (m + 1) = a + 1 + m by omega] at hresp) hinfo
      have hmap : (List.range' a (m + 1)).map (fun j => 2 ^ j) =
          2 ^ a :: (List.range' (a + 1) m).map (fun j => 2 ^ j) := rfl
      show searchLoop oracle retries (a :: List.range' (a + 1) p) = _
      cases ho : oracle a with
      | transportError =>
        have hlt : a < retries - 1 := by omega
        simp [searchLoop, ho, hrest, hlt, hmap]
      | response data2 =>
        have h2 : data2.searchInformation = false := by simpa [isValidAttempt, ho] using ha
        simp [searchLoop, ho, h2, hrest, hmap]

/-- Claim C6: a structurally valid response (success envelope present) is
returned immediately — one HTTP call, no sleeps — whether or not it
contains hits; the loop retries only while attempts are malformed or fail
at the transport layer, sleeping `2 ^ attempt` seconds after each failed
attempt it retries; and when every attempt within the configured bound is
invalid it returns `none` after exactly `retries` calls.  The first
conjunct is the exhaustion case, the second the first-valid-attempt case
(its `k = 0` instance is the immediate-return property). -/
theorem search_client_retry_contract (oracle : Nat → AttemptOutcome) (retries : Nat) :
    ((∀ k, k < retries → isValidAttempt (oracle k) = false) →
        (perform_google_search oracle retries).result = none ∧
        (perform_google_search oracle retries).calls = retries) ∧
    (∀ k data, k < retries → oracle k = AttemptOutcome.response data →
        data.searchInformation = true →
        (∀ j, j < k → isValidAttempt (oracle j) = false) →
        perform_google_search oracle retries =
          { result := some data, calls := k + 1,
            sleeps := (List.range k).map (fun j => 2 ^ j) }) := by
  constructor
  · intro h
    have := searchLoop_all_fail oracle retries retries 0 (fun k _ hk2 => h k (by omega))
    rw [perform_google_search, List.range_eq_range']
    exact this
  · intro k data hk hresp hinfo hprev
    have := searchLoop_first_valid oracle retries k 0 retries (by omega) hk
      (fun j hj => by simpa using hprev j hj) data (by simpa using hresp) hinfo
    rw [perform_google_search, List.range_eq_range', this, List.range_eq_range']

/-- Claim C6, witness: a transport failure on attempt 0 followed by a
valid empty response on attempt 1 yields that response after two calls and
a single one-second backoff sleep. -/
theorem search_client_retry_contract_witness :
    perform_google_search
        (fun k => if k = 0 then AttemptOutcome.transportError
          else AttemptOutcome.response { searchInformation := true, items := some [] }) 3 =
      { result := some { searchInformation := true, items := some [] },
        calls := 2, sleeps := [1] } :=
  (search_client_retry_contract
      (fun k => if k = 0 then AttemptOutcome.transportError
        else AttemptOutcome.response { searchInformation := true, items := some [] }) 3).2
    1 { searchInformation := true, items := some [] } (by decide) (by decide) (by decide)
    (fun j hj => by
      obtain rfl : j = 0 := by omega
      decide)

/-! ### The pipeline driver (courtAI_3.py, lines 294-444)

The four output files — results table, excluded table, no-results file and
processed-names ledger — are modelled as explicit lists in a state record;
the HTTP search and the author fetch are oracle parameters.  An input row
is the list of string cells of one CSV line (`df.values.tolist()`). -/

/-- A row of the results table: the six docket cells of the owning input
row followed by the hit fields. -/
structure ResultRow where
  info : List String
  title : String
  link : String
  year : Option Nat
  snippet : String
  author : String
deriving DecidableEq

/-- A row of the excluded-results table. -/
structure ExcludedRow where
  info : List String
  title : String
  link : String
  year : Option Nat
  snippet : String
  author : String
  reason : ExclusionReason
deriving DecidableEq

/-- The four persistent output files of the run. -/
structure PipelineFiles where
  results : List ResultRow
  excluded : List ExcludedRow
  noResults : List String
  ledger : List String
deriving DecidableEq

/-- The driver's full state: the files plus the in-memory
`processed_names` dictionary (the two can differ: the no-results branch
appends to the ledger file without updating the dictionary). -/
structure RunState where
  files : PipelineFiles
  processedNames : List String
deriving DecidableEq

/-- The `drop_duplicates(..., keep='first')` key of both tables:
`("Name", "Link")`, where the `Name` column holds cell 2 of the docket row. -/
def resultKey (r : ResultRow) : String × String :=
  (r.info.getD 2 "", r.link)

/-- The same key on the excluded table. -/
def excludedKey (r : ExcludedRow) : String × String :=
  (r.info.getD 2 "", r.link)

/-- Accumulator form of `drop_duplicates(subset=..., keep='first')`: keep a
row iff its key was not seen earlier. -/
def dedupByKeyAux {α β : Type} [DecidableEq β] (key : α → β) (seen : List β) :
    List α → List α
  | [] => []
  | a :: rest =>
    if key a ∈ seen then dedupByKeyAux key seen rest
    else a :: dedupByKeyAux key (key a :: seen) rest

/-- Pandas `drop_duplicates(subset=..., keep='first')`: keep the first row of each
key. -/
def dedupByKey {α β : Type} [DecidableEq β] (key : α → β) (l : List α) : List α :=
  dedupByKeyAux key [] l

/-- Translation of `save_valid_results` (courtAI_3.py, lines 294-321): no-op on an empty
hit list; building the 11-column frame raises (and is caught, saving
nothing) unless the docket row has exactly 6 cells; a fresh file takes the
new rows as they are, an existing file is concatenated and deduplicated on
`(Name, Link)` keeping first. -/
def save_valid_results (name_info : List String) (results : List ValidResult)
    (table : List ResultRow) : List ResultRow :=
  if results = [] then table
  else if name_info.length ≠ 6 then table
  else
    let newRows := results.map (fun r =>
      { info := name_info, title := r.title, link := r.link, year := r.year,
        snippet := r.snippet, author := r.author : ResultRow })
    if table = [] then newRows
    else dedupByKey resultKey (table ++ newRows)

/-- Translation of `save_excluded_results` (courtAI_3.py, lines 323-350), the 12-column
analogue. -/
def save_excluded_results (name_info : List String) (results : List ExcludedResult)
    (table : List ExcludedRow) : List ExcludedRow :=
  if results = [] then table
  else if name_info.length ≠ 6 then table
  else
    let newRows := results.map (fun r =>
      { info := name_info, title := r.title, link := r.link, year := r.year,
        snippet := r.snippet, author := r.author, reason := r.reason : ExcludedRow })
    if table = [] then newRows
    else dedupByKey excludedKey (table ++ newRows)

/-- Translation of `save_processed_name` (courtAI_3.py, lines 138-142): append one line to
the ledger file. -/
def save_processed_name (name : String) (files : PipelineFiles) : PipelineFiles :=
  { files with ledger := files.ledger ++ [name] }

/-- Translation of `load_processed_names` (courtAI_3.py, lines 128-136): every ledger
line, stripped. -/
def load_processed_names (files : PipelineFiles) : List String :=
  files.ledger.map py_strip

/-- Line 246's guard seen from the driver: the search returned a body and
the body has an `items` key. -/
def hasItems : Option GoogleData → Bool
  | some data => data.items.isSome
  | none => false

/-- Translation of `fetch_and_process_name` (courtAI_3.py, lines 352-397).  Returns the
new state and the number of search calls performed (0 or 1).  Rows with
fewer than three cells, an empty or whitespace-only name, or an
already-processed name return unchanged.  The query is `f'"{name}"'`; in
the no-results branch only the files are updated, not the in-memory
dictionary, exactly as in the source. -/
def fetch_and_process_name (search : String → Option GoogleData)
    (fetch_author : String → String) (cfg : Config) (name_info : List String)
    (rs : RunState) : RunState × Nat :=
  if name_info.length < 3 then (rs, 0)
  else
    let name := name_info.getD 2 ""
    if name = "" ∨ py_strip name = "" then (rs, 0)
    else if name ∈ rs.processedNames then (rs, 0)
    else
      let case_number := name_info.get? 3
      let search_results := search ("\"" ++ name ++ "\"")
      if hasItems search_results then
        let vr := process_search_results cfg fetch_author search_results case_number
        let f1 := { rs.files with results := save_valid_results name_info vr.1 rs.files.results }
        let f2 := { f1 with excluded := save_excluded_results name_info vr.2 f1.excluded }
        ({ files := save_processed_name name f2,
           processedNames := rs.processedNames ++ [name] }, 1)
      else
        ({ rs with
            files := save_processed_name name
              ({ rs.files with noResults := rs.files.noResults ++ [name] }) }, 1)

/-- The body of `main` after the startup file clearing (courtAI_3.py,
lines 417-432): load the ledger, keep the rows with at least three cells
whose name is not yet processed, and run `fetch_and_process_name` over
them, threading the shared `processed_names` dictionary. -/
def run_names (search : String → Option GoogleData) (fetch_author : String → String)
    (cfg : Config) (input : List (List String)) (files : PipelineFiles) :
    PipelineFiles × Nat :=
  let processed := load_processed_names files
  let remaining := input.filter (fun i =>
    decide (3 ≤ i.length ∧ i.getD 2 "" ∉ processed))
  let final := remaining.foldl
    (fun (acc : RunState × Nat) i =>
      let step := fetch_and_process_name search fetch_author cfg i acc.1
      (step.1, acc.2 + step.2))
    ({ files := files, processedNames := processed }, 0)
  (final.1.files, final.2)

/-- Translation of `clear_old_files` (courtAI_3.py, lines 84-115): delete the results
table, excluded table, no-results file and processed-names ledger. -/
def clear_old_files (_files : PipelineFiles) : PipelineFiles :=
  { results := [], excluded := [], noResults := [], ledger := [] }

/-- Translation of `main` (courtAI_3.py, lines 399-441): clear all previous files —
including the ledger — then abort if the API credentials are missing, else
process the input rows. -/
def main (search : String → Option GoogleData) (fetch_author : String → String)
    (cfg : Config) (input : List (List String)) (files : PipelineFiles) :
    PipelineFiles × Nat :=
  let cleared := clear_old_files files
  if cfg.api_key = "" ∨ cfg.cse_id = "" then (cleared, 0)
  else run_names search fetch_author cfg input cleared

/-- Claim C1, counterexample: a run of `main` started with a ledger that
already contains every input name still performs a search call — `main`
deletes the ledger (with the other output files) before loading it, so the
ledger does not survive a restart.  Here the fresh run also rewrites the
no-results file, so the outputs are not left byte-for-byte unchanged:
`noResults` ends up holding `"Alice"` instead of staying empty. -/
theorem main_clears_ledger_cex :
    (main (fun _ => some { searchInformation := true, items := none }) (fun _ => "Unknown")
        { api_key := "k", cse_id := "c", excluded_authors := [],
          excluded_url_patterns := [], year_matching := true }
        [["d1", "t1", "Alice", "23-1", "Hearing", "Loc"]]
        { results := [], excluded := [], noResults := [], ledger := ["Alice"] }).2 = 1 ∧
    (main (fun _ => some { searchInformation := true, items := none }) (fun _ => "Unknown")
        { api_key := "k", cse_id := "c", excluded_authors := [],
          excluded_url_patterns := [], year_matching := true }
        [["d1", "t1", "Alice", "23-1", "Hearing", "Loc"]]
        { results := [], excluded := [], noResults := [], ledger := ["Alice"] }).1.noResults
      = ["Alice"] := by
  decide

/-- Claim C1, amended: `main` deletes the ledger together with the other
output files at startup, so the ledger does not survive process restarts
and every run searches every valid input name again; the resumable
behaviour holds of the processing stage without the startup clearing
(`run_names`): started on a ledger whose stripped entries contain every
name of the input table, it performs zero search calls and leaves the
results table, excluded table, no-results file and ledger unchanged. -/
theorem run_names_skips_processed (search : String → Option GoogleData)
    (fetch_author : String → String) (cfg : Config) (input : List (List String))
    (files : PipelineFiles)
    (h : ∀ i ∈ input, 3 ≤ i.length → i.getD 2 "" ∈ load_processed_names files) :
    run_names search fetch_author cfg input files = (files, 0) := by
  have hempty : input.filter (fun i =>
      decide (3 ≤ i.length ∧ i.getD 2 "" ∉ load_processed_names files)) = [] := by
    rw [List.filter_eq_nil_iff]
    intro i hi
    simp only [decide_eq_true_eq, not_and, not_not]
    exact h i hi
  simp only [run_names]
  rw [hempty]
  rfl

/-- Claim C1, witness for the amended theorem: one input row whose name is
already in the ledger; the run performs no search and changes nothing. -/
theorem run_names_skips_processed_witness :
    run_names (fun _ => none) (fun _ => "Unknown")
        { api_key := "k", cse_id := "c", excluded_authors := [],
          excluded_url_patterns := [], year_matching := true }
        [["d1", "t1", "Bob", "23-1", "Hearing", "Loc"]]
        { results := [], excluded := [], noResults := [], ledger := ["Bob"] } =
      ({ results := [], excluded := [], noResults := [], ledger := ["Bob"] }, 0) :=
  run_names_skips_processed _ _ _ _ _ (by decide)

/-- Claim C10: an input row with fewer than three cells, or whose name
cell is empty or whitespace-only, is skipped silently: no search call, no
row appended to the results table, excluded table or no-results file, and
nothing appended to the processed ledger. -/
theorem invalid_rows_skipped (search : String → Option GoogleData)
    (fetch_author : String → String) (cfg : Config) (name_info : List String)
    (rs : RunState)
    (h : name_info.length < 3 ∨ py_strip (name_info.getD 2 "") = "") :
    fetch_and_process_name search fetch_author cfg name_info rs = (rs, 0) := by
  unfold fetch_and_process_name
  by_cases hlen : name_info.length < 3
  · rw [if_pos hlen]
  · rw [if_neg hlen, if_pos (Or.inr (h.resolve_left hlen))]

/-- Claim C10, witness: a two-cell row and a whitespace-name row both leave
the state untouched with zero search calls. -/
theorem invalid_rows_skipped_witness :
    fetch_and_process_name (fun _ => none) (fun _ => "Unknown")
        { api_key := "k", cse_id := "c", excluded_authors := [],
          excluded_url_patterns := [], year_matching := true }
        ["d1", "t1", "   ", "23-1", "Hearing", "Loc"]
        { files := { results := [], excluded := [], noResults := [], ledger := [] },
          processedNames := [] } =
      ({ files := { results := [], excluded := [], noResults := [], ledger := [] },
          processedNames := [] }, 0) :=
  invalid_rows_skipped _ _ _ _ _ (by decide)

/-! ### The docket consolidator (courtai_2.py)

Input rows carry the six required columns; a missing `Case Number` cell
(pandas `NaN`) is `none`.  `groupby(['Date', 'Time', 'Name', 'Location',
'Hearing Type'])` sorts the distinct group keys ascending
(lexicographically on the tuple) and aggregates each group's case numbers
with `', '.join(x.dropna().astype(str).str.strip())`, preserving the
original row order inside a group. -/

/-- One raw docket row (courtai_2.py). -/
structure DocketRow where
  date : String
  time : String
  name : String
  caseNumber : Option String
  hearingType : String
  location : String
deriving DecidableEq

/-- One row of the consolidated output table. -/
structure ConsolidatedRow where
  date : String
  time : String
  name : String
  caseNumber : String
  hearingType : String
  location : String
deriving DecidableEq

/-- The list `hearing_types_to_exclude` (courtai_2.py, lines 50-57), verbatim,
duplicates included. -/
def hearing_types_to_exclude : List String := [
  "Review WAppearance of Parties", "Hearing on Bond", "HrgRevocation of Probation",
  "Review Hearing", "Compliance Hrg DV Relinquish", "Appearance on Arrest Warrant",
  "Rttn on Summ for Rev of Prob", "Appearance of Counsel", "Status Conference",
  "Appearance on Bond", "Rtrn Filing of Charges", "HrgRevocation of Deferred",
  "Hearing on Petition to Seal", "Review Hearing", "Show Cause Hearing", "Setting",
  "Hearing on Probation", "PreTrial Readiness Conference", "Restitution Hearing",
  "Rtrn on Summ for Rev of Prob"]

/-- The grouping key `(Date, Time, Name, Location, Hearing Type)`. -/
abbrev GroupKey := String × String × String × String × String

/-- Key of a raw row. -/
def rowKey (r : DocketRow) : GroupKey :=
  (r.date, r.time, r.name, r.location, r.hearingType)

/-- Key of a consolidated row. -/
def outKey (o : ConsolidatedRow) : GroupKey :=
  (o.date, o.time, o.name, o.location, o.hearingType)

/-- The key tuple under the lexicographic order pandas sorts group keys by. -/
def toLexKey (k : GroupKey) :
    Lex (String × Lex (String × Lex (String × Lex (String × String)))) :=
  toLex (k.1, toLex (k.2.1, toLex (k.2.2.1, toLex (k.2.2.2.1, k.2.2.2.2))))

/-- Ascending lexicographic comparison of group keys. -/
def keyLe (a b : GroupKey) : Prop :=
  toLexKey a ≤ toLexKey b

instance : DecidableRel keyLe :=
  fun a b => inferInstanceAs (Decidable (toLexKey a ≤ toLexKey b))

instance : IsTotal GroupKey keyLe :=
  ⟨fun a b => le_total (toLexKey a) (toLexKey b)⟩

instance : IsTrans GroupKey keyLe :=
  ⟨fun _ _ _ h1 h2 => le_trans h1 h2⟩

/-- Translation of `filtered_df` (courtai_2.py, line 60): the rows that survive the
hearing-type partition. -/
def survivingRows (rows : List DocketRow) : List DocketRow :=
  rows.filter (fun r => decide (r.hearingType ∉ hearing_types_to_exclude))

/-- Translation of `excluded_rows` (courtai_2.py, line 59). -/
def excludedDocketRows (rows : List DocketRow) : List DocketRow :=
  rows.filter (fun r => decide (r.hearingType ∈ hearing_types_to_exclude))

/-- The distinct group keys of the surviving rows, sorted ascending as
pandas `groupby` emits them. -/
def groupKeys (rows : List DocketRow) : List GroupKey :=
  List.insertionSort keyLe ((survivingRows rows).map rowKey).dedup

/-- The aggregation `', '.join(x.dropna().astype(str).str.strip())` over
one group, the group's rows taken in their original order. -/
def mergedCaseNumber (survivors : List DocketRow) (k : GroupKey) : String :=
  py_join ", " (((survivors.filter (fun r => decide (rowKey r = k))).filterMap
    (fun r => r.caseNumber)).map py_strip)

/-- The output row of one group, in the reordered column layout. -/
def mkConsolidatedRow (k : GroupKey) (cn : String) : ConsolidatedRow :=
  { date := k.1, time := k.2.1, name := k.2.2.1, location := k.2.2.2.1,
    hearingType := k.2.2.2.2, caseNumber := cn }

/-- The consolidation stage of courtai_2.py (steps 3-7): the consolidated
table and the exclusion log, the latter one entry
`(Name, Case Number, Hearing Type)` per excluded source row, in order. -/
def consolidate (rows : List DocketRow) :
    List ConsolidatedRow × List (String × Option String × String) :=
  ((groupKeys rows).map (fun k =>
      mkConsolidatedRow k (mergedCaseNumber (survivingRows rows) k)),
    (excludedDocketRows rows).map (fun r => (r.name, r.caseNumber, r.hearingType)))

/-- Re-reading a consolidated row as a raw row (its merged case-number
string is a present cell). -/
def consolidatedToRow (o : ConsolidatedRow) : DocketRow :=
  { date := o.date, time := o.time, name := o.name, caseNumber := some o.caseNumber,
    hearingType := o.hearingType, location := o.location }

theorem outKey_mkConsolidatedRow (k : GroupKey) (cn : String) :
    outKey (mkConsolidatedRow k cn) = k := rfl

theorem rowKey_consolidatedToRow (o : ConsolidatedRow) :
    rowKey (consolidatedToRow o) = outKey o := rfl

theorem mem_groupKeys {rows : List DocketRow} {k : GroupKey} :
    k ∈ groupKeys rows ↔ ∃ r ∈ survivingRows rows, rowKey r = k := by
  unfold groupKeys
  rw [List.mem_insertionSort, List.mem_dedup, List.mem_map]

theorem out_hearing_not_excluded {rows : List DocketRow} {o : ConsolidatedRow}
    (ho : o ∈ (consolidate rows).1) :
    o.hearingType ∉ hearing_types_to_exclude := by
  obtain ⟨k, hk, rfl⟩ := List.mem_map.mp ho
  obtain ⟨r, hr, hkey⟩ := mem_groupKeys.mp hk
  have hmem := (List.mem_filter.mp hr).2
  have hh : (mkConsolidatedRow k (mergedCaseNumber (survivingRows rows) k)).hearingType
      = r.hearingType := by
    rw [← hkey]
    rfl
  rw [hh]
  simpa using hmem

/-- Claim C7: a source row whose hearing type is in the fixed exclusion
list never reaches the consolidated table — no output row carries an
excluded hearing type — and the exclusion log holds exactly one entry per
excluded source row, in input order, carrying its name, case number and
hearing type; rows with other hearing types are never logged. -/
theorem consolidator_exclusion_log (rows : List DocketRow) :
    (∀ o ∈ (consolidate rows).1, o.hearingType ∉ hearing_types_to_exclude) ∧
    (consolidate rows).2 =
      (rows.filter (fun r => decide (r.hearingType ∈ hearing_types_to_exclude))).map
        (fun r => (r.name, r.caseNumber, r.hearingType)) :=
  ⟨fun _ ho => out_hearing_not_excluded ho, rfl⟩

/-- Concrete input for the claim C7 witness: one surviving and one
excluded row. -/
def exclusionLogSampleRows : List DocketRow :=
  [{ date := "d", time := "t", name := "Al", caseNumber := some "11",
      hearingType := "Arraignment", location := "L" },
    { date := "d", time := "t", name := "Bob", caseNumber := some "9",
      hearingType := "Setting", location := "L" }]

/-- The consolidated row the claim C7 witness inspects. -/
def exclusionLogSampleOut : ConsolidatedRow :=
  { date := "d", time := "t", name := "Al", caseNumber := "11",
    hearingType := "Arraignment", location := "L" }

/-- Claim C7, witness: on `exclusionLogSampleRows` the surviving row's
hearing type is absent from the exclusion list and the log holds exactly
the excluded row's fields. -/
theorem consolidator_exclusion_log_witness :
    exclusionLogSampleOut.hearingType ∉ hearing_types_to_exclude ∧
    (consolidate exclusionLogSampleRows).2 = [("Bob", some "9", "Setting")] :=
  ⟨(consolidator_exclusion_log exclusionLogSampleRows).1 exclusionLogSampleOut (by decide),
    ((consolidator_exclusion_log exclusionLogSampleRows).2).trans (by decide)⟩

/-- Claim C8: every consolidated row's case number is the comma-join of
the trimmed case-number cells of the surviving source rows of its group,
in their original input order, duplicates kept (absent cells are dropped
by the aggregation's `dropna`). -/
theorem merged_case_number_join (rows : List DocketRow) (o : ConsolidatedRow)
    (ho : o ∈ (consolidate rows).1) :
    o.caseNumber = py_join ", "
      (((rows.filter (fun r =>
          decide (rowKey r = outKey o) && decide (r.hearingType ∉ hearing_types_to_exclude))).filterMap
        (fun r => r.caseNumber)).map py_strip) := by
  obtain ⟨k, hk, rfl⟩ := List.mem_map.mp ho
  show mergedCaseNumber (survivingRows rows) k = _
  unfold mergedCaseNumber survivingRows
  rw [List.filter_filter, outKey_mkConsolidatedRow]

/-- Concrete input for the claim C8 witness: two raw rows with identical
key and case numbers `"A"` and `"B"`. -/
def mergeSampleRows : List DocketRow :=
  [{ date := "d", time := "t", name := "Al", caseNumber := some "A",
      hearingType := "Arraignment", location := "L" },
    { date := "d", time := "t", name := "Al", caseNumber := some "B",
      hearingType := "Arraignment", location := "L" }]

/-- The merged row of `mergeSampleRows`: its case number is `"A, B"`. -/
def mergeSampleOut : ConsolidatedRow :=
  { date := "d", time := "t", name := "Al", caseNumber := "A, B",
    hearingType := "Arraignment", location := "L" }

/-- Claim C8, witness: the two rows of `mergeSampleRows` merge to the case
number `"A, B"`. -/
theorem merged_case_number_join_witness :
    mergeSampleOut.caseNumber = py_join ", "
      (((mergeSampleRows.filter (fun r =>
          decide (rowKey r = outKey mergeSampleOut)
            && decide (r.hearingType ∉ hearing_types_to_exclude))).filterMap
        (fun r => r.caseNumber)).map py_strip) :=
  merged_case_number_join mergeSampleRows mergeSampleOut (by decide)

theorem groupKeys_nodup (rows : List DocketRow) : (groupKeys rows).Nodup :=
  ((List.perm_insertionSort keyLe _).nodup_iff).mpr (List.nodup_dedup _)

theorem groupKeys_sorted (rows : List DocketRow) : List.Sorted keyLe (groupKeys rows) :=
  List.sorted_insertionSort keyLe _

theorem filter_key_singleton {g : GroupKey → DocketRow} (hg : ∀ j, rowKey (g j) = j) :
    ∀ (ks : List GroupKey), ks.Nodup → ∀ k ∈ ks,
      (ks.map g).filter (fun r => decide (rowKey r = k)) = [g k] := by
  intro ks
  induction ks with
  | nil =>
    intro _ k hk
    exact absurd hk (List.not_mem_nil k)
  | cons a rest ih =>
    intro hnd k hk
    obtain ⟨hna, hndr⟩ := List.nodup_cons.mp hnd
    rw [List.map_cons, List.filter_cons]
    rcases List.mem_cons.mp hk with rfl | hk2
    · have hda : decide (rowKey (g k) = k) = true := by simp [hg]
      have ht : (rest.map g).filter (fun r => decide (rowKey r = k)) = [] := by
        rw [List.filter_eq_nil_iff]
        intro b hb
        obtain ⟨j, hj, rfl⟩ := List.mem_map.mp hb
        simp only [hg, decide_eq_true_eq]
        rintro rfl
        exact hna hj
      simp [hda, ht]
    · have hne : decide (rowKey (g a) = k) = false := by
        simp only [hg, decide_eq_false_iff_not]
        rintro rfl
        exact hna hk2
      rw [hne]
      simpa using ih hndr k hk2

/-- Concrete input on which consolidation is not idempotent: a case
number consisting of whitespace only. -/
def nonIdempotentRows : List DocketRow :=
  [{ date := "d", time := "t", name := "Al", caseNumber := some "A",
      hearingType := "Arraignment", location := "L" },
    { date := "d", time := "t", name := "Al", caseNumber := some "  ",
      hearingType := "Arraignment", location := "L" }]

/-- Claim C9, counterexample: `nonIdempotentRows` consolidates to a single
row with the merged case number `"A, "` — the whitespace-only cell trims
to the empty string, so the join leaves a trailing space — and re-running
consolidation on that output trims it to `"A,"`, a different table. -/
theorem consolidate_not_idempotent_cex :
    (consolidate nonIdempotentRows).1 =
      [{ date := "d", time := "t", name := "Al", caseNumber := "A, ",
          hearingType := "Arraignment", location := "L" }] ∧
    (consolidate ((consolidate nonIdempotentRows).1.map consolidatedToRow)).1 =
      [{ date := "d", time := "t", name := "Al", caseNumber := "A,",
          hearingType := "Arraignment", location := "L" }] ∧
    (consolidate ((consolidate nonIdempotentRows).1.map consolidatedToRow)).1
      ≠ (consolidate nonIdempotentRows).1 := by
  decide

/-- Claim C9, amended: consolidation is idempotent on its own output
provided every merged case-number field is unchanged by trimming — the
only way a merged field can fail this is a group member whose case number
trims to the empty string, which leaves a leading or trailing whitespace
around the join's separator.  Re-running the stage (exclusion partition,
grouping, case-number merge, column reorder) on such an output yields the
identical table. -/
theorem consolidate_idempotent_trimmed (rows : List DocketRow)
    (h : ∀ o ∈ (consolidate rows).1, py_strip o.caseNumber = o.caseNumber) :
    (consolidate ((consolidate rows).1.map consolidatedToRow)).1 = (consolidate rows).1 := by
  have hout1 : (consolidate rows).1 =
      (groupKeys rows).map (fun k =>
        mkConsolidatedRow k (mergedCaseNumber (survivingRows rows) k)) := rfl
  have hA : survivingRows ((consolidate rows).1.map consolidatedToRow) =
      (consolidate rows).1.map consolidatedToRow := by
    unfold survivingRows
    rw [List.filter_eq_self]
    intro r hr
    obtain ⟨o, ho, rfl⟩ := List.mem_map.mp hr
    have hne := out_hearing_not_excluded ho
    simpa [consolidatedToRow] using hne
  have hB : ((consolidate rows).1.map consolidatedToRow).map rowKey = groupKeys rows := by
    rw [hout1, List.map_map, List.map_map]
    exact (List.map_congr_left (fun k _ => rfl)).trans (List.map_id _)
  have hC : groupKeys ((consolidate rows).1.map consolidatedToRow) = groupKeys rows := by
    show List.insertionSort keyLe
        (((survivingRows ((consolidate rows).1.map consolidatedToRow)).map rowKey).dedup)
      = groupKeys rows
    rw [hA, hB, List.dedup_eq_self.mpr (groupKeys_nodup rows),
      (groupKeys_sorted rows).insertionSort_eq]
  have hmm : (consolidate rows).1.map consolidatedToRow
      = (groupKeys rows).map (consolidatedToRow ∘ (fun j =>
          mkConsolidatedRow j (mergedCaseNumber (survivingRows rows) j))) := by
    rw [hout1, List.map_map]
  show (groupKeys ((consolidate rows).1.map consolidatedToRow)).map (fun k =>
      mkConsolidatedRow k
        (mergedCaseNumber (survivingRows ((consolidate rows).1.map consolidatedToRow)) k))
    = (consolidate rows).1
  rw [hC, hA, hout1]
  apply List.map_congr_left
  intro k hk
  have hsing := filter_key_singleton
    (g := consolidatedToRow ∘ (fun j =>
      mkConsolidatedRow j (mergedCaseNumber (survivingRows rows) j)))
    (fun j => rfl) (groupKeys rows) (groupKeys_nodup rows) k hk
  have hstrip := h _ (List.mem_map_of_mem
    (fun k => mkConsolidatedRow k (mergedCaseNumber (survivingRows rows) k)) hk)
  simp only [mkConsolidatedRow] at hstrip
  have hmerge : mergedCaseNumber ((consolidate rows).1.map consolidatedToRow) k
      = py_strip (mergedCaseNumber (survivingRows rows) k) := by
    rw [mergedCaseNumber, hmm, hsing]
    rfl
  rw [hout1] at hmerge
  rw [hmerge, hstrip]

/-- Concrete input for the claim C9 witness: ordinary case numbers, whose
merged field `"A, B"` is trim-invariant. -/
def idempotentSampleRows : List DocketRow :=
  [{ date := "d", time := "t", name := "Cy", caseNumber := some "A",
      hearingType := "Arraignment", location := "L" },
    { date := "d", time := "t", name := "Cy", caseNumber := some "B",
      hearingType := "Arraignment", location := "L" }]

/-- Claim C9, witness: re-running consolidation on the output of
`idempotentSampleRows` reproduces it exactly. -/
theorem consolidate_idempotent_trimmed_witness :
    (consolidate ((consolidate idempotentSampleRows).1.map consolidatedToRow)).1
      = (consolidate idempotentSampleRows).1 :=
  consolidate_idempotent_trimmed idempotentSampleRows (by decide)

end CourtAI
